import Mathlib

/-!
Shallow embedding of the System-Monitoring application core (`src/main.rs`).

The embedded parts are the ones the specification makes claims about:

* the reactive state machine `App.update` (the iced `Application::update`
  method), re-expressed as a pure function `App → Message → App × List WorkTask`
  where `Task` records the asynchronous work the handler schedules
  (`Command::perform(...)` in the source; `Command::none()` becomes `[]`);
* `App.build_process_list`, which sorts the collector-reported process
  records by cpu usage, modelled with the standard stable merge sort
  (Rust's `slice::sort_by` is a stable sort, so for a comparator that is a
  total order its observable behaviour is exactly the unique stable sorted
  permutation);
* the settings store `AppSettings::load` / `AppSettings::save`, modelled
  over an explicit filesystem environment `FsEnv`; the JSON encoding is the
  exact `serde_json::to_string_pretty` output for this one-field struct, and
  the decoder is a character-level parser of that object form.

Machine floats (`f32`) enter only through `cpu_usage` and only via
`partial_cmp`, so they are modelled as `Option ℚ`: `some q` is a comparable
(non-NaN) value and `none` is a NaN, for which `partial_cmp` returns `None`.
The status-message texts are reproduced byte-for-byte from the source,
including the mojibake (double-encoded emoji) suffixes that the source file
literally contains.
-/

/-- Model of `f32` values as they are used by the code: `some q` is an
ordinary comparable value, `none` is a NaN. -/
abbrev Flt : Type := Option ℚ

/-- The total comparison of two non-NaN float values. -/
def qcmp (x y : ℚ) : Ordering :=
  if x < y then Ordering.lt else if x = y then Ordering.eq else Ordering.gt

/-- Model of `f32::partial_cmp`: returns `none` exactly when either operand
is NaN. -/
def pcmpFlt : Flt → Flt → Option Ordering
  | some x, some y => some (qcmp x y)
  | _, _ => none

/-- `enum ThemeChoice { Light, Dark }`. -/
inductive ThemeChoice
  | Light
  | Dark
  deriving DecidableEq, Repr

/-- `struct AppSettings { theme: ThemeChoice }`. -/
structure AppSettings where
  theme : ThemeChoice
  deriving DecidableEq, Repr

/-- `impl Default for AppSettings`: the default theme is Dark. -/
def AppSettings.default : AppSettings := { theme := ThemeChoice.Dark }

/-- `enum NotificationLevel { Success, Error }`. -/
inductive NotificationLevel
  | Success
  | Error
  deriving DecidableEq, Repr

/-- `struct StatusMessage { message: String, level: NotificationLevel }`. -/
structure StatusMessage where
  message : String
  level : NotificationLevel
  deriving DecidableEq, Repr

/-- `StatusMessage::success`. -/
def StatusMessage.success (message : String) : StatusMessage :=
  { message := message, level := NotificationLevel.Success }

/-- `StatusMessage.error`. -/
def StatusMessage.error (message : String) : StatusMessage :=
  { message := message, level := NotificationLevel.Error }

/-- The three characters that the source file literally contains after
"saved"/"successfully" in its success texts (a double-encoded check-mark
emoji: U+00E2, U+0153, U+2026). -/
def checkMark : String := "\u00E2\u0153\u2026"

/-- The five characters that the source file literally contains in its
failure texts (a double-encoded warning emoji with its last byte lost:
U+00E2, U+0161, U+00A0, U+00EF, U+00B8). -/
def warnMark : String := "\u00E2\u0161\u00A0\u00EF\u00B8"

/-- `enum Tab { Dashboard, Processes, Settings }`. -/
inductive Tab
  | Dashboard
  | Processes
  | Settings
  deriving DecidableEq, Repr

/-- `struct ProcessData { pid, name, cpu_usage, memory }`. `Pid` is modelled
as `Nat`. -/
structure ProcessData where
  pid : Nat
  name : String
  cpu_usage : Flt
  memory : Nat
  deriving DecidableEq, Repr

/-- `struct SystemData { cpu_usage, memory_used, memory_total, process_count }`. -/
structure SystemData where
  cpu_usage : Flt
  memory_used : ℚ
  memory_total : ℚ
  process_count : Nat
  deriving DecidableEq, Repr

/-- Model of the `sysinfo::System` handle as the update logic observes it
after a `refresh_all`: `procs` is `processes().values()` already projected
to `ProcessData`, in the map's iteration order (the collector-emitted
order); `killOk pid` is the outcome `Process::kill()` reports for `pid`;
the remaining fields feed the dashboard aggregates. -/
structure SysState where
  procs : List ProcessData
  killOk : Nat → Bool
  globalCpu : Flt
  usedMemory : Nat
  totalMemory : Nat

/-- `self.system.processes().contains_key(&pid)`. -/
def SysState.hasPid (sys : SysState) (pid : Nat) : Bool :=
  sys.procs.any (fun r => r.pid == pid)

/-- `self.system.process(pid)`. -/
def SysState.findProc (sys : SysState) (pid : Nat) : Option ProcessData :=
  sys.procs.find? (fun r => r.pid == pid)

/-- The `to_gb` closure: `bytes as f64 / (1024.0 * 1024.0 * 1024.0)`. -/
def to_gb (bytes : Nat) : ℚ := (bytes : ℚ) / (1024 * 1024 * 1024)

/-- The sort comparator passed to `processes.sort_by` in
`build_process_list`: `b.cpu_usage.partial_cmp(&a.cpu_usage).unwrap_or(Equal)`. -/
def cpuCmp (a b : ProcessData) : Ordering :=
  (pcmpFlt b.cpu_usage a.cpu_usage).getD Ordering.eq

/-- The before-or-tied relation induced by `cpuCmp`; a stable sort with
comparator `cpuCmp` keeps `a` before `b` exactly when this holds. -/
def cpuLe (a b : ProcessData) : Bool :=
  decide (cpuCmp a b ≠ Ordering.gt)

/-- `App::build_process_list`: project the process map values and stable-sort
them with the `cpuCmp` comparator (descending cpu usage). -/
def App.build_process_list (sys : SysState) : List ProcessData :=
  sys.procs.mergeSort cpuLe

/-- The `App` state struct (the fields the update logic touches). -/
structure App where
  system : SysState
  active_tab : Tab
  dashboard_data : SystemData
  process_list : List ProcessData
  selected_process : Option Nat
  show_kill_confirm : Option Nat
  last_status_message : Option StatusMessage
  settings : AppSettings
  is_loading : Bool

/-- The asynchronous work a handler can schedule (`Command::perform`):
saving the settings (completing as `SettingsSaved`), or sleeping three
seconds and completing as `ClearStatusMessage`. -/
inductive WorkTask
  | saveSettings (s : AppSettings)
  | clearAfter3s
  deriving DecidableEq, Repr

/-- `enum Message`. `Tick` carries the refreshed system state that
`self.system.refresh_all()` produces, making the handler a pure function of
its inputs. -/
inductive Message
  | Tick (newSys : SysState)
  | SettingsLoaded (r : Except String AppSettings)
  | SettingsSaved (r : Except String Unit)
  | ThemeChanged (c : ThemeChoice)
  | TabSelected (t : Tab)
  | ProcessSelected (pid : Nat)
  | KillProcessRequested (pid : Nat)
  | KillProcessConfirmed (pid : Nat)
  | KillProcessCancelled
  | ClearStatusMessage

/-- `App::update`, clause by clause from the source; the returned list is
the async work the handler schedules. -/
def App.update (a : App) : Message → App × List WorkTask
  | Message.SettingsLoaded (Except.ok s) =>
      ({ a with settings := s, is_loading := false }, [])
  | Message.SettingsLoaded (Except.error _) =>
      ({ a with is_loading := false,
                last_status_message :=
                  some (StatusMessage.error "Failed to load settings") }, [])
  | Message.ThemeChanged c =>
      ({ a with settings := { a.settings with theme := c } },
       [WorkTask.saveSettings { a.settings with theme := c }])
  | Message.SettingsSaved (Except.ok _) =>
      ({ a with last_status_message :=
            some (StatusMessage.success ("Settings saved " ++ checkMark)) },
       [WorkTask.clearAfter3s])
  | Message.SettingsSaved (Except.error _) =>
      ({ a with last_status_message :=
            some (StatusMessage.error ("Failed to save settings " ++ warnMark)) },
       [WorkTask.clearAfter3s])
  | Message.Tick newSys =>
      ({ a with
          system := newSys,
          dashboard_data :=
            { cpu_usage := newSys.globalCpu,
              memory_used := to_gb newSys.usedMemory,
              memory_total := to_gb newSys.totalMemory,
              process_count := newSys.procs.length },
          process_list := App.build_process_list newSys,
          selected_process :=
            match a.selected_process with
            | some pid => if newSys.hasPid pid then some pid else none
            | none => none }, [])
  | Message.TabSelected t => ({ a with active_tab := t }, [])
  | Message.ProcessSelected pid => ({ a with selected_process := some pid }, [])
  | Message.KillProcessRequested pid => ({ a with show_kill_confirm := some pid }, [])
  | Message.KillProcessCancelled => ({ a with show_kill_confirm := none }, [])
  | Message.KillProcessConfirmed pid =>
      match a.system.findProc pid with
      | some _ =>
          if a.system.killOk pid then
            ({ a with show_kill_confirm := none,
                      last_status_message := some (StatusMessage.success
                        ("Process " ++ toString pid ++ " killed successfully " ++ checkMark)) },
             [WorkTask.clearAfter3s])
          else
            ({ a with show_kill_confirm := none,
                      last_status_message := some (StatusMessage.error
                        ("Failed to kill process " ++ toString pid ++ " " ++ warnMark
                          ++ " (Permission denied?)")) },
             [WorkTask.clearAfter3s])
      | none =>
          ({ a with show_kill_confirm := none,
                    last_status_message := some (StatusMessage.error
                      ("Tried to kill non-existent process " ++ toString pid)) },
           [WorkTask.clearAfter3s])
  | Message.ClearStatusMessage => ({ a with last_status_message := none }, [])

/-- Process a sequence of events in arrival order (the single-threaded
event loop of §5: one handler at a time, no reordering). -/
def App.run (a : App) : List Message → App
  | [] => a
  | m :: ms => App.run (a.update m).1 ms

/-- `serde_json` string token for a `ThemeChoice` value. -/
def themeJson : ThemeChoice → String
  | ThemeChoice.Light => "Light"
  | ThemeChoice.Dark => "Dark"

/-- The exact `serde_json::to_string_pretty` output for an `AppSettings`
value (two-space indent, one field). -/
def to_string_pretty (s : AppSettings) : String :=
  "\x7b\n  \"theme\": \"" ++ themeJson s.theme ++ "\"\n\x7d"

/-- Drop leading JSON whitespace. -/
def skipWs : List Char → List Char
  | [] => []
  | c :: cs =>
    if c == ' ' || c == '\n' || c == '\t' || c == '\r' then skipWs cs else c :: cs

/-- Consume an expected literal token; `none` on mismatch. -/
def stripTok : List Char → List Char → Option (List Char)
  | [], cs => some cs
  | _ :: _, [] => none
  | p :: ps, c :: cs => if c == p then stripTok ps cs else none

/-- Parse the quoted theme token. -/
def parseTheme (cs : List Char) : Option (ThemeChoice × List Char) :=
  match stripTok "\"Light\"".data cs with
  | some rest => some (ThemeChoice.Light, rest)
  | none =>
    match stripTok "\"Dark\"".data cs with
    | some rest => some (ThemeChoice.Dark, rest)
    | none => none

/-- Consume the closing brace and trailing whitespace. -/
def finishObj (a : AppSettings) (cs : List Char) : Option AppSettings :=
  match stripTok [ '\x7d' ] (skipWs cs) with
  | some rest => if (skipWs rest).isEmpty then some a else none
  | none => none

/-- Model of `serde_json::from_str::<AppSettings>` on the object form this
application reads and writes: an object with the single field "theme" whose
value is "Light" or "Dark", with arbitrary surrounding whitespace. `none`
models a parse error. -/
def from_str (s : String) : Option AppSettings :=
  match stripTok [ '\x7b' ] (skipWs s.data) with
  | none => none
  | some cs1 =>
  match stripTok "\"theme\"".data (skipWs cs1) with
  | none => none
  | some cs2 =>
  match stripTok [ ':' ] (skipWs cs2) with
  | none => none
  | some cs3 =>
  match parseTheme (skipWs cs3) with
  | none => none
  | some (t, cs4) => finishObj { theme := t } cs4

/-- The filesystem environment the settings store runs against:
`hasConfigDir` is whether `ProjectDirs::from(..)` finds a config directory;
`fileContents` is the settings file at the config path (`none` = absent);
`readErr`/`mkdirErr`/`writeErr` are the I/O failures the corresponding
`tokio::fs` call reports (`none` = that call succeeds; `mkdirErr = none`
also covers the parent directory already existing). -/
structure FsEnv where
  hasConfigDir : Bool
  fileContents : Option String
  readErr : Option String
  mkdirErr : Option String
  writeErr : Option String
  deriving DecidableEq, Repr

/-- `AppSettings::load`, branch by branch from the source. -/
def AppSettings.load (env : FsEnv) : Except String AppSettings :=
  if env.hasConfigDir then
    match env.fileContents with
    | some content =>
      match env.readErr with
      | some e => Except.error e
      | none =>
        match from_str content with
        | some s => Except.ok s
        | none => Except.error "invalid settings JSON"
    | none => Except.ok AppSettings.default
  else Except.error "Could not find config directory"

/-- `AppSettings::save`, branch by branch from the source: on success the
file is overwritten whole with the pretty-printed JSON; serialization of
this one-field struct cannot fail. Returns the result and the filesystem
after the call. -/
def AppSettings.save (s : AppSettings) (env : FsEnv) : Except String Unit × FsEnv :=
  if env.hasConfigDir then
    match env.mkdirErr with
    | some e => (Except.error e, env)
    | none =>
      match env.writeErr with
      | some e => (Except.error e, env)
      | none => (Except.ok (), { env with fileContents := some (to_string_pretty s) })
  else (Except.error "Could not find config directory", env)

/-- An empty system: no processes, every kill denied. -/
def sys0 : SysState :=
  { procs := [], killOk := fun _ => false, globalCpu := some 0,
    usedMemory := 0, totalMemory := 0 }

/-- A concrete quiescent application state over `sys0`. -/
def app0 : App :=
  { system := sys0, active_tab := Tab.Dashboard,
    dashboard_data :=
      { cpu_usage := some 0, memory_used := 0, memory_total := 0, process_count := 0 },
    process_list := [], selected_process := none, show_kill_confirm := none,
    last_status_message := none, settings := AppSettings.default,
    is_loading := false }

/-- A concrete process record. -/
def proc1 : ProcessData :=
  { pid := 1, name := "init", cpu_usage := some 5, memory := 4096 }

/-- A second record, higher cpu. -/
def proc2 : ProcessData :=
  { pid := 2, name := "worker", cpu_usage := some 9, memory := 8192 }

/-- A third record, tied with `proc1` on cpu. -/
def proc3 : ProcessData :=
  { pid := 3, name := "idle", cpu_usage := some 5, memory := 512 }

/-- A record whose cpu usage is NaN. -/
def procNaN : ProcessData :=
  { pid := 4, name := "weird", cpu_usage := none, memory := 256 }

/-- A system with three live processes (collector order 1, 2, 3), kills
allowed. -/
def sys1 : SysState :=
  { procs := [proc1, proc2, proc3], killOk := fun _ => true, globalCpu := some 10,
    usedMemory := 1073741824, totalMemory := 4294967296 }

/-- `sys1` with kills denied. -/
def sys1deny : SysState := { sys1 with killOk := fun _ => false }

/-- A system containing a NaN-cpu record. -/
def sysNaN : SysState := { sys1 with procs := [proc1, procNaN, proc2] }

/-- An application state over `sys1`. -/
def app1 : App :=
  { app0 with system := sys1, process_list := App.build_process_list sys1 }

/-- `app0` with process 1 selected. -/
def appSel : App := { app0 with selected_process := some 1 }

/-- A filesystem on which no per-user config directory can be determined. -/
def fsNoDir : FsEnv :=
  { hasConfigDir := false, fileContents := none, readErr := none,
    mkdirErr := none, writeErr := none }

/-- A healthy filesystem: config directory present, no file yet, all I/O
succeeding. -/
def fsOk : FsEnv :=
  { hasConfigDir := true, fileContents := none, readErr := none,
    mkdirErr := none, writeErr := none }

/-- The comparator `cpuLe` transported to the subtype of members of a fixed
record list (used to reason about stability of the sort). -/
def cpuLeSub {l : List ProcessData} (a b : {r : ProcessData // r ∈ l}) : Bool :=
  cpuLe a.val b.val

/-- The cpu-value test transported to the subtype of members of a fixed
record list. -/
def pSub {l : List ProcessData} (v : Flt) (x : {r : ProcessData // r ∈ l}) : Bool :=
  decide (x.val.cpu_usage = v)

/-- A record with cpu 20 (highest). -/
def p20 : ProcessData := { pid := 21, name := "a", cpu_usage := some 20, memory := 1 }

/-- A record with cpu 3. -/
def p3 : ProcessData := { pid := 22, name := "b", cpu_usage := some 3, memory := 1 }

/-- A record with NaN cpu, placed between the comparable ones. -/
def pN : ProcessData := { pid := 23, name := "c", cpu_usage := none, memory := 1 }

/-- A record with cpu 10, emitted last by the collector. -/
def p10 : ProcessData := { pid := 24, name := "d", cpu_usage := some 10, memory := 1 }

/-- A refresh whose records are, in collector order, cpu 20, cpu 3, NaN,
cpu 10. -/
def sysC5 : SysState :=
  { procs := [p20, p3, pN, p10], killOk := fun _ => false, globalCpu := some 0,
    usedMemory := 0, totalMemory := 0 }

/-- C1. The spec's staleness rule demands that a clear scheduled for an
older status message must not erase a newer one. The code's
`ClearStatusMessage` handler clears unconditionally (it carries no message
identity and no timer is cancelled), so the stale clear fired for the first
message erases the second: after `SettingsSaved(Ok)` (message m1, clear
scheduled), then `KillProcessConfirmed 99` for an absent pid (message m2,
visible), delivering the first sleep's `ClearStatusMessage` leaves no
message at all instead of m2. -/
theorem stale_clear_erases_newer_message :
    (App.run app1 [Message.SettingsSaved (Except.ok ()),
                   Message.KillProcessConfirmed 99]).last_status_message
      = some (StatusMessage.error "Tried to kill non-existent process 99")
    ∧ (App.run app1 [Message.SettingsSaved (Except.ok ()),
                     Message.KillProcessConfirmed 99,
                     Message.ClearStatusMessage]).last_status_message = none :=
  ⟨rfl, rfl⟩

/-- C2 counterexample. Handling `SettingsLoaded(Err)` installs an
Error-level status message but schedules no asynchronous work at all — in
particular no 3-second auto-clear — refuting the claim that every
Error-level message comes with the auto-clear. -/
theorem settings_load_error_schedules_no_clear :
    ((App.update app0 (Message.SettingsLoaded (Except.error "disk error"))).1.last_status_message).map
        (fun m => m.level) = some NotificationLevel.Error
    ∧ (App.update app0 (Message.SettingsLoaded (Except.error "disk error"))).2 = [] :=
  ⟨rfl, rfl⟩

/-- C2 as amended: every Error-level status message installed by the
settings-save-failure handler or by any branch of the kill-confirmed
handler does schedule the fixed 3-second auto-clear; only the
settings-load-failure message lacks one. -/
theorem save_and_kill_error_messages_schedule_clear (a : App) (e : String) (pid : Nat) :
    (a.update (Message.SettingsSaved (Except.error e))).2 = [WorkTask.clearAfter3s]
    ∧ (a.update (Message.KillProcessConfirmed pid)).2 = [WorkTask.clearAfter3s] := by
  constructor
  · rfl
  · cases hf : a.system.findProc pid <;> by_cases hk : a.system.killOk pid <;>
      simp [App.update, hf, hk]

/-- C3 counterexample. On a live pid whose kill succeeds, the code's
success text is the claimed text followed by a space and a three-character
decoration (the source's literal suffix), so it is not equal to
"Process 1 killed successfully" as the claim states. -/
theorem kill_success_text_has_decoration :
    (App.update app1 (Message.KillProcessConfirmed 1)).1.last_status_message
      = some (StatusMessage.success ("Process 1 killed successfully " ++ checkMark))
    ∧ ("Process 1 killed successfully " ++ checkMark) ≠ "Process 1 killed successfully" :=
  ⟨rfl, by decide⟩

/-- C3 as amended: handling kill-confirmed(pid) always returns the kill
workflow to Idle and schedules the 3-second clear, and emits exactly one
status message per case, with the code's literal texts: success text
"Process <pid> killed successfully " plus decoration; denial text
"Failed to kill process <pid> " plus decoration plus " (Permission
denied?)" (capital P); and "Tried to kill non-existent process <pid>"
exactly as claimed. -/
theorem kill_confirmed_cases (a : App) (pid : Nat) :
    ((a.update (Message.KillProcessConfirmed pid)).1.show_kill_confirm = none)
    ∧ ((a.update (Message.KillProcessConfirmed pid)).2 = [WorkTask.clearAfter3s])
    ∧ (∀ p, a.system.findProc pid = some p → a.system.killOk pid = true →
        (a.update (Message.KillProcessConfirmed pid)).1.last_status_message
          = some (StatusMessage.success
              ("Process " ++ toString pid ++ " killed successfully " ++ checkMark)))
    ∧ (∀ p, a.system.findProc pid = some p → a.system.killOk pid = false →
        (a.update (Message.KillProcessConfirmed pid)).1.last_status_message
          = some (StatusMessage.error
              ("Failed to kill process " ++ toString pid ++ " " ++ warnMark
                ++ " (Permission denied?)")))
    ∧ (a.system.findProc pid = none →
        (a.update (Message.KillProcessConfirmed pid)).1.last_status_message
          = some (StatusMessage.error
              ("Tried to kill non-existent process " ++ toString pid))) := by
  refine ⟨?_, ?_, ?_, ?_, ?_⟩
  · cases hf : a.system.findProc pid <;> by_cases hk : a.system.killOk pid <;>
      simp [App.update, hf, hk]
  · cases hf : a.system.findProc pid <;> by_cases hk : a.system.killOk pid <;>
      simp [App.update, hf, hk]
  · intro p hf hk; simp [App.update, hf, hk]
  · intro p hf hk; simp [App.update, hf, hk]
  · intro hf; simp [App.update, hf]

/-- C3 witness: the success case at pid 1 of the live system `sys1`. -/
theorem kill_confirmed_cases_witness :
    (App.update app1 (Message.KillProcessConfirmed 1)).1.last_status_message
      = some (StatusMessage.success
          ("Process " ++ toString 1 ++ " killed successfully " ++ checkMark)) :=
  (kill_confirmed_cases app1 1).2.2.1 proc1 rfl rfl

/-- C8. A failed settings save sets the error status message (with its
scheduled clear) and leaves the in-memory settings untouched; composed
after a theme change, the optimistically applied theme survives the save
failure. -/
theorem save_error_keeps_optimistic_settings (a : App) (c : ThemeChoice) (e : String) :
    ((a.update (Message.SettingsSaved (Except.error e))).1.settings = a.settings)
    ∧ ((a.update (Message.SettingsSaved (Except.error e))).1.last_status_message
        = some (StatusMessage.error ("Failed to save settings " ++ warnMark)))
    ∧ ((a.update (Message.SettingsSaved (Except.error e))).2 = [WorkTask.clearAfter3s])
    ∧ (((a.update (Message.ThemeChanged c)).1.update
          (Message.SettingsSaved (Except.error e))).1.settings.theme = c) :=
  ⟨rfl, rfl, rfl, rfl⟩

/-- C10. List construction is total: the produced list is always a
permutation of the collector-reported records (no panic, no error branch),
and whenever `partial_cmp` finds the two cpu values incomparable (a NaN on
either side) the comparator falls back to `Ordering.eq`. -/
theorem build_process_list_total_nan_safe (sys : SysState) :
    (App.build_process_list sys).Perm sys.procs
    ∧ ∀ a b : ProcessData, pcmpFlt b.cpu_usage a.cpu_usage = none →
        cpuCmp a b = Ordering.eq := by
  constructor
  · exact List.mergeSort_perm sys.procs cpuLe
  · intro a b h
    simp [cpuCmp, h]

/-- C10 witness: a system containing a NaN-cpu record, and the comparator
at a (value, NaN) pair. -/
theorem build_process_list_total_nan_safe_witness :
    (App.build_process_list sysNaN).Perm sysNaN.procs
    ∧ cpuCmp proc1 procNaN = Ordering.eq :=
  ⟨(build_process_list_total_nan_safe sysNaN).1,
   (build_process_list_total_nan_safe sysNaN).2 proc1 procNaN rfl⟩

/-- The pids occurring in the sorted list are exactly the keys of the
process map it was built from. -/
theorem mem_build_pids (sys : SysState) (pid : Nat) :
    pid ∈ (App.build_process_list sys).map (fun r => r.pid) ↔ sys.hasPid pid = true := by
  simp [App.build_process_list, SysState.hasPid, List.any_eq_true, List.mem_mergeSort]

/-- C4 counterexample. `ProcessSelected` sets the selection unconditionally:
selecting pid 7 in a state whose process list is empty leaves the selection
pointing at a pid absent from the current process list, violating the
claimed invariant preservation. -/
theorem process_selected_breaks_selection_invariant :
    (App.update app0 (Message.ProcessSelected 7)).1.selected_process = some 7
    ∧ (App.update app0 (Message.ProcessSelected 7)).1.process_list = [] :=
  ⟨rfl, rfl⟩

/-- C4 as amended: the invariant is not preserved by `ProcessSelected`
(which writes the selection unconditionally), but every refresh
re-establishes it: after any Tick, a set selection's pid is present in the
new process list. -/
theorem tick_restores_selection_invariant (a : App) (sys : SysState) (pid : Nat)
    (h : (a.update (Message.Tick sys)).1.selected_process = some pid) :
    pid ∈ (a.update (Message.Tick sys)).1.process_list.map (fun r => r.pid) := by
  have hsel : (a.update (Message.Tick sys)).1.selected_process
      = match a.selected_process with
        | some q => if sys.hasPid q then some q else none
        | none => none := rfl
  have hpl : (a.update (Message.Tick sys)).1.process_list
      = App.build_process_list sys := rfl
  rw [hsel] at h
  rw [hpl, mem_build_pids]
  cases hs : a.selected_process with
  | none => rw [hs] at h; cases h
  | some q =>
    rw [hs] at h
    by_cases hp : sys.hasPid q = true
    · simp only [hp, if_true] at h
      cases h
      exact hp
    · simp only [Bool.not_eq_true] at hp
      simp [hp] at h

/-- C4 witness: with pid 1 selected and pid 1 alive across the refresh, the
selection survives the Tick and indeed appears in the new list. -/
theorem tick_restores_selection_invariant_witness :
    1 ∈ (App.update appSel (Message.Tick sys1)).1.process_list.map (fun r => r.pid) :=
  tick_restores_selection_invariant appSel sys1 1 (by decide)

/-- C6. Reconciliation at every refresh: if the previously selected pid is
absent from the new process list the selection becomes none, and if it is
present the selection is unchanged. -/
theorem tick_reconciles_selection (a : App) (sys : SysState) (pid : Nat)
    (h : a.selected_process = some pid) :
    (a.update (Message.Tick sys)).1.selected_process
      = if pid ∈ (a.update (Message.Tick sys)).1.process_list.map (fun r => r.pid)
        then some pid else none := by
  have hsel : (a.update (Message.Tick sys)).1.selected_process
      = match a.selected_process with
        | some q => if sys.hasPid q then some q else none
        | none => none := rfl
  have hpl : (a.update (Message.Tick sys)).1.process_list
      = App.build_process_list sys := rfl
  rw [hsel, h, hpl]
  by_cases hp : sys.hasPid pid = true
  · rw [if_pos ((mem_build_pids sys pid).mpr hp)]
    simp [hp]
  · rw [if_neg (fun hm => hp ((mem_build_pids sys pid).mp hm))]
    simp only [Bool.not_eq_true] at hp
    simp [hp]

/-- C6 witness: pid 1 selected, refresh to the empty system `sys0`. -/
theorem tick_reconciles_selection_witness :
    (App.update appSel (Message.Tick sys0)).1.selected_process
      = if 1 ∈ (App.update appSel (Message.Tick sys0)).1.process_list.map (fun r => r.pid)
        then some 1 else none :=
  tick_reconciles_selection appSel sys0 1 rfl

/-- C7 counterexample. When no per-user config directory can be determined,
`load` returns an error even though no settings file exists and no read or
parse was attempted — refuting "an error is returned only on read or parse
failure of an existing file". -/
theorem load_errors_without_existing_file :
    AppSettings.load fsNoDir = Except.error "Could not find config directory"
    ∧ fsNoDir.fileContents = none :=
  ⟨rfl, rfl⟩

/-- C7 as amended: with a determinable config directory, a missing settings
file yields the default (Dark) settings as a success; and every error comes
either from the config directory being undeterminable or from a read or
parse failure of an existing file. -/
theorem load_default_and_error_cases (env : FsEnv) :
    (env.hasConfigDir = true → env.fileContents = none →
        AppSettings.load env = Except.ok AppSettings.default
        ∧ AppSettings.default.theme = ThemeChoice.Dark)
    ∧ (∀ e, AppSettings.load env = Except.error e →
        env.hasConfigDir = false
        ∨ ∃ c, env.fileContents = some c
            ∧ (env.readErr = some e ∨ from_str c = none)) := by
  constructor
  · intro h1 h2
    exact ⟨by simp [AppSettings.load, h1, h2], rfl⟩
  · intro e he
    by_cases h1 : env.hasConfigDir = true
    · right
      cases hc : env.fileContents with
      | none => simp [AppSettings.load, h1, hc] at he
      | some c =>
        refine ⟨c, rfl, ?_⟩
        cases hr : env.readErr with
        | some e2 =>
          left
          simp [AppSettings.load, h1, hc, hr] at he
          rw [he]
        | none =>
          right
          cases hp : from_str c with
          | some s => simp [AppSettings.load, h1, hc, hr, hp] at he
          | none => rfl
    · left
      simpa using h1

/-- C7 witness: a healthy filesystem with no settings file yet. -/
theorem load_default_and_error_cases_witness :
    AppSettings.load fsOk = Except.ok AppSettings.default
    ∧ AppSettings.default.theme = ThemeChoice.Dark :=
  (load_default_and_error_cases fsOk).1 rfl rfl

/-- Decoding the pretty-printed JSON of any settings value recovers exactly
that value. -/
theorem from_str_round_trip (s : AppSettings) :
    from_str (to_string_pretty s) = some s := by
  obtain ⟨t⟩ := s
  cases t <;> decide

/-- C9. On a filesystem where the save's directory creation and write
succeed (and reads are healthy), saving any settings value and loading it
back yields exactly the saved value. -/
theorem save_load_round_trip (s : AppSettings) (env : FsEnv)
    (h1 : env.hasConfigDir = true) (h2 : env.mkdirErr = none)
    (h3 : env.writeErr = none) (h4 : env.readErr = none) :
    (AppSettings.save s env).1 = Except.ok ()
    ∧ AppSettings.load (AppSettings.save s env).2 = Except.ok s := by
  constructor
  · simp [AppSettings.save, h1, h2, h3]
  · simp [AppSettings.save, AppSettings.load, h1, h2, h3, h4, from_str_round_trip s]

/-- C9 witness: saving Light settings on the healthy filesystem and loading
them back. -/
theorem save_load_round_trip_witness :
    (AppSettings.save { theme := ThemeChoice.Light } fsOk).1 = Except.ok ()
    ∧ AppSettings.load (AppSettings.save { theme := ThemeChoice.Light } fsOk).2
        = Except.ok { theme := ThemeChoice.Light } :=
  save_load_round_trip { theme := ThemeChoice.Light } fsOk rfl rfl rfl rfl

/-- On two records with comparable (non-NaN) cpu values, the sort's
before-or-tied relation is exactly the descending comparison of those
values. -/
theorem cpuLe_some {a b : ProcessData} {qa qb : ℚ}
    (ha : a.cpu_usage = some qa) (hb : b.cpu_usage = some qb) :
    cpuLe a b = decide (qb ≤ qa) := by
  simp only [cpuLe, cpuCmp, pcmpFlt, ha, hb, Option.getD_some]
  rcases lt_trichotomy qb qa with h | h | h
  · simp [qcmp, h, le_of_lt h]
  · simp [qcmp, h]
  · simp [qcmp, not_lt.mpr h.le, h.ne', not_le.mpr h]

/-- When every record carries a comparable cpu value, the built list is
sorted by cpu usage in descending order. -/
theorem build_sorted (sys : SysState)
    (h : ∀ r ∈ sys.procs, r.cpu_usage ≠ none) :
    (App.build_process_list sys).Pairwise
      (fun a b => b.cpu_usage.getD 0 ≤ a.cpu_usage.getD 0) := by
  have hmap : (sys.procs.mergeSort cpuLe).map (fun r => r.cpu_usage.getD 0)
      = (sys.procs.map (fun r => r.cpu_usage.getD 0)).mergeSort
          (fun x y => decide (y ≤ x)) := by
    apply List.map_mergeSort
    intro a ha b hb
    obtain ⟨qa, hqa⟩ := Option.ne_none_iff_exists'.mp (h a ha)
    obtain ⟨qb, hqb⟩ := Option.ne_none_iff_exists'.mp (h b hb)
    rw [cpuLe_some hqa hqb, hqa, hqb]
    simp
  have htr : ∀ x y z : ℚ, decide (y ≤ x) = true → decide (z ≤ y) = true →
      decide (z ≤ x) = true := by
    intro x y z hxy hyz
    simp only [decide_eq_true_eq] at *
    exact le_trans hyz hxy
  have htt : ∀ x y : ℚ, (decide (y ≤ x) || decide (x ≤ y)) = true := by
    intro x y
    simp only [Bool.or_eq_true, decide_eq_true_eq]
    exact le_total y x
  have hs := List.sorted_mergeSort htr htt (sys.procs.map (fun r => r.cpu_usage.getD 0))
  rw [← hmap, List.pairwise_map] at hs
  exact hs.imp (fun hab => by simpa using hab)

/-- The sort is stable: for every cpu value, the records carrying exactly
that value appear in the output in the same order as in the collector
input. (This holds with no hypothesis on the other records.) -/
theorem build_filter_stable (sys : SysState)
    (h : ∀ r ∈ sys.procs, r.cpu_usage ≠ none) (v : Flt) :
    (App.build_process_list sys).filter (fun r => decide (r.cpu_usage = v))
      = sys.procs.filter (fun r => decide (r.cpu_usage = v)) := by
  have hsome : ∀ x : {r : ProcessData // r ∈ sys.procs}, ∃ q, x.val.cpu_usage = some q :=
    fun x => Option.ne_none_iff_exists'.mp (h x.val x.property)
  have htrans : ∀ a b c : {r : ProcessData // r ∈ sys.procs},
      cpuLeSub a b = true → cpuLeSub b c = true → cpuLeSub a c = true := by
    intro a b c hab hbc
    obtain ⟨qa, ha⟩ := hsome a
    obtain ⟨qb, hb⟩ := hsome b
    obtain ⟨qc, hc⟩ := hsome c
    simp only [cpuLeSub] at *
    rw [cpuLe_some ha hb] at hab
    rw [cpuLe_some hb hc] at hbc
    rw [cpuLe_some ha hc]
    simp only [decide_eq_true_eq] at *
    exact le_trans hbc hab
  have htotal : ∀ a b : {r : ProcessData // r ∈ sys.procs},
      (cpuLeSub a b || cpuLeSub b a) = true := by
    intro a b
    obtain ⟨qa, ha⟩ := hsome a
    obtain ⟨qb, hb⟩ := hsome b
    simp only [cpuLeSub]
    rw [cpuLe_some ha hb, cpuLe_some hb ha]
    simp only [Bool.or_eq_true, decide_eq_true_eq]
    exact le_total qb qa
  have hmap : (sys.procs.attach.mergeSort cpuLeSub).map Subtype.val
      = sys.procs.mergeSort cpuLe := by
    have hms := @List.map_mergeSort {r : ProcessData // r ∈ sys.procs} ProcessData
      cpuLeSub cpuLe Subtype.val sys.procs.attach (fun a _ b _ => rfl)
    rw [hms, List.attach_map_subtype_val]
  have hpair : (sys.procs.attach.filter (pSub v)).Pairwise
      (fun a b => cpuLeSub a b = true) := by
    apply List.pairwise_of_forall_mem_list
    intro a hamem b hbmem
    obtain ⟨qa, ha⟩ := hsome a
    have hav : a.val.cpu_usage = v := by
      have h2 := (List.mem_filter.mp hamem).2
      simpa [pSub] using h2
    have hbv : b.val.cpu_usage = v := by
      have h2 := (List.mem_filter.mp hbmem).2
      simpa [pSub] using h2
    have hbq : b.val.cpu_usage = some qa := by rw [hbv, ← hav, ha]
    simp only [cpuLeSub]
    rw [cpuLe_some ha hbq]
    simp
  have hsub : List.Sublist (sys.procs.attach.filter (pSub v))
      (sys.procs.attach.mergeSort cpuLeSub) :=
    List.sublist_mergeSort htrans htotal hpair (List.filter_sublist _)
  have hcfil : (sys.procs.attach.filter (pSub v)).filter (pSub v)
      = sys.procs.attach.filter (pSub v) :=
    List.filter_eq_self.mpr (fun a ha => (List.mem_filter.mp ha).2)
  have hsub2 : List.Sublist (sys.procs.attach.filter (pSub v))
      ((sys.procs.attach.mergeSort cpuLeSub).filter (pSub v)) := by
    have h3 := hsub.filter (pSub v)
    rwa [hcfil] at h3
  have hperm : ((sys.procs.attach.mergeSort cpuLeSub).filter (pSub v)).Perm
      (sys.procs.attach.filter (pSub v)) :=
    (List.mergeSort_perm _ _).filter _
  have hfil : (sys.procs.attach.mergeSort cpuLeSub).filter (pSub v)
      = sys.procs.attach.filter (pSub v) :=
    (hsub2.eq_of_length hperm.length_eq.symm).symm
  have hcomp : ((fun r => decide (r.cpu_usage = v)) ∘ (Subtype.val :
      {r : ProcessData // r ∈ sys.procs} → ProcessData)) = pSub v := rfl
  calc (App.build_process_list sys).filter (fun r => decide (r.cpu_usage = v))
      = ((sys.procs.attach.mergeSort cpuLeSub).map Subtype.val).filter
          (fun r => decide (r.cpu_usage = v)) := by
        rw [App.build_process_list, hmap]
    _ = ((sys.procs.attach.mergeSort cpuLeSub).filter (pSub v)).map Subtype.val := by
        rw [List.filter_map, hcomp]
    _ = (sys.procs.attach.filter (pSub v)).map Subtype.val := by rw [hfil]
    _ = (sys.procs.attach.map Subtype.val).filter (fun r => decide (r.cpu_usage = v)) := by
        rw [List.filter_map, hcomp]
    _ = sys.procs.filter (fun r => decide (r.cpu_usage = v)) := by
        rw [List.attach_map_subtype_val]

/-- C5 as amended: for every refresh whose records all carry comparable
(non-NaN) cpu values, the built ProcessList is sorted by cpu usage
descending, and records with equal cpu usage keep the collector-emitted
relative order (stability, stated as: filtering the output by any fixed cpu
value gives exactly the input's records with that value, in input order).
With a NaN record present, descending order can fail — see the
counterexample on `sysC5`. -/
theorem build_process_list_sorted_stable (sys : SysState)
    (h : ∀ r ∈ sys.procs, r.cpu_usage ≠ none) :
    (App.build_process_list sys).Pairwise
      (fun a b => b.cpu_usage.getD 0 ≤ a.cpu_usage.getD 0)
    ∧ ∀ v : Flt, (App.build_process_list sys).filter (fun r => decide (r.cpu_usage = v))
        = sys.procs.filter (fun r => decide (r.cpu_usage = v)) :=
  ⟨build_sorted sys h, build_filter_stable sys h⟩

/-- C5 witness: the three-process system `sys1`, whose records (cpu 5, 9,
and a tie at 5) all carry comparable values. -/
theorem build_process_list_sorted_stable_witness :
    (∀ r ∈ sys1.procs, r.cpu_usage ≠ none)
    ∧ ((App.build_process_list sys1).Pairwise
        (fun a b => b.cpu_usage.getD 0 ≤ a.cpu_usage.getD 0)
      ∧ ∀ v : Flt, (App.build_process_list sys1).filter (fun r => decide (r.cpu_usage = v))
          = sys1.procs.filter (fun r => decide (r.cpu_usage = v))) :=
  ⟨by decide, build_process_list_sorted_stable sys1 (by decide)⟩

/-- C5 counterexample. The claim quantifies over every input set of process
records, but on the NaN-containing collector order (cpu 20, cpu 3, NaN,
cpu 10) the sort leaves the list unchanged — the comparator ties NaN with
everything, so the comparable records with cpu 3 and cpu 10 end up in
ascending order and the output is not sorted descending. -/
theorem nan_input_breaks_descending_order :
    App.build_process_list sysC5 = [p20, p3, pN, p10]
    ∧ ¬ (App.build_process_list sysC5).Pairwise
        (fun a b => b.cpu_usage.getD 0 ≤ a.cpu_usage.getD 0) := by
  have h1 : cpuLe p20 p3 = true := by decide
  have h2 : cpuLe pN p10 = true := by decide
  have h3 : cpuLe p20 pN = true := by decide
  have h4 : cpuLe p3 pN = true := by decide
  have hev : App.build_process_list sysC5 = [p20, p3, pN, p10] := by
    simp [App.build_process_list, sysC5, List.mergeSort, List.splitInTwo, List.merge,
      h1, h2, h3, h4]
  refine ⟨hev, ?_⟩
  rw [hev]
  intro hp
  norm_num [List.pairwise_cons, p20, p3, pN, p10] at hp
